import Mathlib

/-
Shallow embedding of the QuantAQ daily-report pipeline.

Main source: generate_daily_stats.py — for each sensor it merges raw CSV
files, generates 24-hour windows anchored at 06:00 UTC, resolves a
checkpoint from the sensor's existing output log, and appends one
statistics row per pending window.  Secondary source:
plot_daily_average.py — the downstream consumer that filters rows by the
availability ratio before plotting.

Modelling conventions:
- Timestamps are integers counting nanoseconds since the epoch in UTC
  (pandas Timestamps are integer nanoseconds under the hood).
- Measurement values are rationals; a missing value (NaN after numeric
  coercion) is represented as Option.none.
- Fallible pandas operations are embedded in Except String; the string
  carries the Python exception the source would raise.
- The serialized form of a statistics field is tracked by the Field
  inductive: absent serializes as the empty string, nanTok as the text
  produced by formatting a float NaN, num as a fixed-point numeral.
-/

namespace DailyStats

/-- Nanoseconds in one second. -/
def nsPerSec : ℤ := 1000000000

/-- Nanoseconds in one hour. -/
def hourNs : ℤ := 3600 * nsPerSec

/-- Nanoseconds in one 24-hour day. -/
def dayNs : ℤ := 86400 * nsPerSec

/-- The nine measured variables, generate_daily_stats.py line 21. -/
def VARS : List String := ["co", "no", "no2", "o3", "pm1", "pm25", "pm10", "temp", "rh"]

/-- Anchor hour of every window boundary (6 AM UTC), line 22. -/
def WINDOW_START_HOUR : ℤ := 6

/-- One raw observation after the merger's coercions: a timezone-aware
timestamp and one optional numeric value per entry of VARS (none = NaN). -/
structure Reading where
  ts : ℤ
  vals : List (Option ℚ)
deriving DecidableEq

/- ── Window Generator (lines 26-38) ─────────────────────────────────── -/

/-- Model of pandas Timestamp.normalize: floor the instant to midnight of
its UTC calendar day.  Integer division on ℤ is floor division. -/
def normalizeTs (t : ℤ) : ℤ := dayNs * (t / dayNs)

/-- Lines 28-30: today_6am is 06:00 UTC of the current day, pushed back one
day when the current instant has not yet reached it. -/
def anchorToday (now : ℤ) : ℤ :=
  if now < normalizeTs now + WINDOW_START_HOUR * hourNs then
    normalizeTs now + WINDOW_START_HOUR * hourNs - dayNs
  else
    normalizeTs now + WINDOW_START_HOUR * hourNs

/-- Number of points pd.date_range(start, end, freq=step) emits: the points
start + i*step with start + i*step ≤ end, none when end < start. -/
def dateRangeLen (s e step : ℤ) : ℕ :=
  if e < s then 0 else ((e - s) / step).toNat + 1

/-- Lines 33-38: window_starts = date_range(start_dt, today_6am - 1 day,
freq = 24h).  start_dt is the global start date at the anchor hour. -/
def windowStarts (startDt now : ℤ) : List ℤ :=
  (List.range (dateRangeLen startDt (anchorToday now - dayNs) dayNs)).map
    (fun (i : ℕ) => startDt + dayNs * (i : ℤ))

/- ── Dataset Merger (lines 45-68) ───────────────────────────────────── -/

/-- One raw CSV file as the merger sees it: either pandas parses it into a
list of cleaned readings, or read_csv raises (unopenable / not tabular). -/
inductive RawFile where
  | good (rows : List Reading)
  | bad
deriving DecidableEq

/-- Rows contributed by one file: a bad file contributes nothing. -/
def goodRows : RawFile → List Reading
  | .good rows => rows
  | .bad => []

/-- Lines 49-61: the per-file read loop.  First component: concatenation of
all successfully parsed files' rows (the dfs list, before sorting).  Second
component: the diagnostics the loop prints while reading files.  The
except-branch on lines 53-54 is a bare continue — it prints nothing, so no
message is ever collected for a skipped file. -/
def readFiles : List RawFile → List Reading × List String
  | [] => ([], [])
  | f :: fs =>
    match f with
    | .good rows => (rows ++ (readFiles fs).1, (readFiles fs).2)
    | .bad => readFiles fs

/-- Line 64: all_df = pd.concat(dfs).sort_index(). -/
def mergeAndSort (files : List RawFile) : List Reading :=
  ((readFiles files).1).mergeSort (fun a b => a.ts ≤ b.ts)

/- ── Window Aggregator (lines 94-123) ───────────────────────────────── -/

/-- Line 97: block = all_df.loc[window_start:window_end].  Label-based
slicing with .loc on a monotonic DatetimeIndex is inclusive of BOTH
endpoints, so the slice keeps every reading with ws ≤ ts ≤ we. -/
def blockSlice (rows : List Reading) (ws we : ℤ) : List Reading :=
  rows.filter (fun r => ws ≤ r.ts && r.ts ≤ we)

/-- Serialized form of one statistics field.  absent is written as the
empty string; nanTok is the token produced by formatting a float NaN with
percent-.3f; num is an ordinary fixed-point numeral. -/
inductive Field where
  | absent
  | nanTok
  | num (q : ℚ)
deriving DecidableEq

/-- Line 102: series = block[v].dropna() — the non-missing values of
variable number i of the block, in index order. -/
def colValues (block : List Reading) (i : ℕ) : List ℚ :=
  block.filterMap (fun r => r.vals.getD i none)

/-- Sum of a list of rationals. -/
def listSum (l : List ℚ) : ℚ := l.foldl (fun a b => a + b) 0

/-- Arithmetic mean of a nonempty series (pandas Series.mean). -/
def seriesMean (l : List ℚ) : ℚ := listSum l / (l.length : ℚ)

/-- Minimum of a nonempty series (pandas Series.min). -/
def seriesMin : List ℚ → ℚ
  | [] => 0
  | x :: xs => xs.foldl (fun a b => if b < a then b else a) x

/-- Maximum of a nonempty series (pandas Series.max). -/
def seriesMax : List ℚ → ℚ
  | [] => 0
  | x :: xs => xs.foldl (fun a b => if a < b then b else a) x

/-- Median of a nonempty series (pandas Series.median): middle element of
the sorted values, or the mean of the two middle elements. -/
def seriesMedian (l : List ℚ) : ℚ :=
  if l.length % 2 = 1 then
    (l.mergeSort (fun a b => a ≤ b)).getD (l.length / 2) 0
  else
    ((l.mergeSort (fun a b => a ≤ b)).getD (l.length / 2 - 1) 0 +
      (l.mergeSort (fun a b => a ≤ b)).getD (l.length / 2) 0) / 2

/-- Sample variance with the N-1 denominator (square of pandas
Series.std's value when at least two values are present). -/
def seriesVar (l : List ℚ) : ℚ :=
  listSum (l.map (fun x => (x - seriesMean l) * (x - seriesMean l))) /
    ((l.length : ℚ) - 1)

/-- Line 108: the serialized std field of a NONEMPTY series.  Series.std
uses the N-1 denominator, so a single value gives NaN, which percent-.3f
formats as the NaN token.  With two or more values std is the finite square
root of seriesVar; only finiteness and presence matter to the spec, so the
numeric payload carried here is the variance. -/
def stdField (l : List ℚ) : Field :=
  if l.length = 1 then .nanTok else .num (seriesVar l)

/-- Lines 101-112: the five serialized statistics fields of variable i in
the order mean, min, max, std, median; all absent when the series is empty. -/
def varFields (block : List Reading) (i : ℕ) : List Field :=
  if (colValues block i).isEmpty then
    [.absent, .absent, .absent, .absent, .absent]
  else
    [.num (seriesMean (colValues block i)),
     .num (seriesMin (colValues block i)),
     .num (seriesMax (colValues block i)),
     stdField (colValues block i),
     .num (seriesMedian (colValues block i))]

/-- Successive differences of a list (Series.diff().dropna() of the block
index as a series, in nanoseconds). -/
def diffsOf : List ℤ → List ℤ
  | a :: b :: rest => (b - a) :: diffsOf (b :: rest)
  | _ => []

/-- Minimum of a list of integers, none when empty (Series.min: NaT on an
empty timedelta series). -/
def minList : List ℤ → Option ℤ
  | [] => none
  | x :: xs => some (xs.foldl (fun a b => if b < a then b else a) x)

/-- Python round(x) for a rational x = a/b with b > 0: round half to even. -/
def pyRoundDiv (a b : ℤ) : ℤ :=
  if 2 * (a % b) < b then a / b
  else if b < 2 * (a % b) then a / b + 1
  else if (a / b) % 2 = 0 then a / b else a / b + 1

/-- Lines 114-120: the expected_count field.  With at least two rows in the
block, sec is the minimum positive successive index difference and
expected = round(24*3600/sec) = round(86400e9 ns / sec ns); with fewer than
two rows the field is absent (ok none).  When every successive difference
is zero (two or more rows all on one timestamp) the filtered series is
empty, its min is NaT, NaT.total_seconds() is float nan, and
int(round(24*3600/nan)) raises — embedded as the error case. -/
def expectedField (block : List Reading) : Except String (Option ℤ) :=
  if 2 ≤ block.length then
    match minList ((diffsOf (block.map (fun r => r.ts))).filter (fun d => 0 < d)) with
    | some sec => .ok (some (pyRoundDiv (24 * 3600 * nsPerSec) sec))
    | none => .error "ValueError: cannot convert float NaN to integer"
  else
    .ok none

/-- Line 121: available = len(block.dropna(how=all, subset=VARS)) — rows of
the block with at least one non-missing variable value. -/
def availableCount (block : List Reading) : ℕ :=
  (block.filter (fun r => r.vals.any (fun v => v.isSome))).length

/-- One output row (lines 99-123): the window's start timestamp, the 45
per-variable statistics fields in VARS order, then expected_count (none
serializes as the empty field) and available_count. -/
structure StatRow where
  date : ℤ
  stats : List Field
  expected : Option ℤ
  available : ℕ
deriving DecidableEq

/-- Lines 95-123: compute the full record of one window, propagating the
expected-count failure. -/
def windowRow (allRows : List Reading) (windowStart : ℤ) : Except String StatRow :=
  match expectedField (blockSlice allRows windowStart (windowStart + 24 * hourNs)) with
  | .error e => .error e
  | .ok exp =>
    .ok { date := windowStart,
          stats := (List.range VARS.length).flatMap
            (fun i => varFields (blockSlice allRows windowStart (windowStart + 24 * hourNs)) i),
          expected := exp,
          available := availableCount (blockSlice allRows windowStart (windowStart + 24 * hourNs)) }

/- ── Checkpoint Resolver (lines 70-91) ──────────────────────────────── -/

/-- One value of the date column of an existing output file after
pd.read_csv(parse_dates).  aware records whether the parsed value carries a
timezone (it does whenever the file was written by this pipeline, because
Timestamp.isoformat() of a UTC timestamp includes the +00:00 offset). -/
structure ParsedDate where
  aware : Bool
  t : ℤ
deriving DecidableEq

/-- The date cell this pipeline writes for a window (line 99:
window_start.isoformat()), as it parses on a later run: timezone-aware. -/
def writtenDate (w : ℤ) : ParsedDate := { aware := true, t := w }

/-- Model of pandas Timestamp.tz_localize(tz): attaches a timezone to a
naive timestamp and raises TypeError on a timestamp that already has one. -/
def tzLocalize (d : ParsedDate) : Except String ParsedDate :=
  if d.aware then
    .error "TypeError: Cannot localize tz-aware timestamp, use tz_convert for conversions"
  else
    .ok { aware := true, t := d.t }

/-- Maximum of the parsed date column, none when the file has no data rows
(existing.empty). -/
def maxDate : List ParsedDate → Option ParsedDate
  | [] => none
  | d :: ds => some (ds.foldl (fun a b => if a.t < b.t then b else a) d)

/-- Lines 70-85: resolve the checkpoint.  outFile is none when the output
file does not exist (the run then creates it with a header row), otherwise
the parsed date column of its data rows.  Missing file or zero data rows
give the sentinel start_dt - 1 day; otherwise the code takes
existing.date.max().tz_localize(TZ), which fails on the tz-aware values the
pipeline itself wrote. -/
def lastDateOf (startDt : ℤ) (outFile : Option (List ParsedDate)) : Except String ℤ :=
  match outFile with
  | none => .ok (startDt - dayNs)
  | some existing =>
    match maxDate existing with
    | none => .ok (startDt - dayNs)
    | some d =>
      match tzLocalize d with
      | .error e => .error e
      | .ok loc => .ok loc.t

/-- Lines 94-125: the append loop over the pending windows, in order,
stopping at the first failure. -/
def appendRows (allRows : List Reading) : List ℤ → Except String (List StatRow)
  | [] => .ok []
  | w :: ws =>
    match windowRow allRows w with
    | .error e => .error e
    | .ok row =>
      match appendRows allRows ws with
      | .error e => .error e
      | .ok rest => .ok (row :: rest)

/-- Lines 70-125: one sensor's run, given the global start instant, the
generated window starts, the state of the output file and the merged
dataset: resolve the checkpoint, keep the windows strictly after it
(line 88), and compute the rows the run appends. -/
def processSensor (startDt : ℤ) (windows : List ℤ) (outFile : Option (List ParsedDate))
    (allRows : List Reading) : Except String (List StatRow) :=
  match lastDateOf startDt outFile with
  | .error e => .error e
  | .ok lastDate => appendRows allRows (windows.filter (fun w => lastDate < w))

/-- The record a window gets from an empty dataset: every statistic absent,
expected_count absent, available_count zero. -/
def emptyStatRow (w : ℤ) : StatRow :=
  { date := w, stats := List.replicate 45 .absent, expected := none, available := 0 }

/- ── Downstream plot filter (plot_daily_average.py lines 34-38) ─────── -/

/-- One CSV cell of a statistics log as read back by the plotting script:
empty, non-numeric text, or a numeral. -/
inductive Cell where
  | blank
  | text (s : String)
  | number (q : ℚ)
deriving DecidableEq

/-- A float value in the plotting script: NaN, finite, or an infinity. -/
inductive PVal where
  | nan
  | num (q : ℚ)
  | inf
  | ninf
deriving DecidableEq

/-- pd.to_numeric(cell, errors=coerce): empty and non-numeric cells become
NaN, numerals their value (lines 34-35). -/
def toNumericCell : Cell → PVal
  | .blank => .nan
  | .text _ => .nan
  | .number q => .num q

/-- Float division as pandas performs it on line 36: NaN propagates, a
nonzero value over zero gives a signed infinity, zero over zero gives NaN. -/
def pdiv : PVal → PVal → PVal
  | .nan, _ => .nan
  | .num _, .nan => .nan
  | .inf, .nan => .nan
  | .ninf, .nan => .nan
  | .num a, .num b =>
    if b = 0 then (if a = 0 then .nan else if 0 < a then .inf else .ninf)
    else .num (a / b)
  | .num _, .inf => .num 0
  | .num _, .ninf => .num 0
  | .inf, .num b => if 0 ≤ b then .inf else .ninf
  | .inf, .inf => .nan
  | .inf, .ninf => .nan
  | .ninf, .num b => if 0 ≤ b then .ninf else .inf
  | .ninf, .inf => .nan
  | .ninf, .ninf => .nan

/-- Float comparison value ≥ threshold: false whenever the value is NaN. -/
def geQ : PVal → ℚ → Bool
  | .nan, _ => false
  | .num a, r => r ≤ a
  | .inf, _ => true
  | .ninf, _ => false

/-- Line 36 and line 38: a row is kept for plotting exactly when
available_count / expected_count evaluates at least MIN-RATIO = 0.9. -/
def keepRow (availCell expCell : Cell) : Bool :=
  geQ (pdiv (toNumericCell availCell) (toNumericCell expCell)) (9 / 10)

/- ── Yardstick taken from the spec's words (for refinement claims) ──── -/

/-- Spec wording of the Window Aggregator contract: the readings inside the
half-open window, start ≤ timestamp < start + 24h.  Stated from the spec's
words, for comparison with the blockSlice the source computes. -/
def specWindowRowCount (rows : List Reading) (s : ℤ) : ℕ :=
  (rows.filter (fun r => s ≤ r.ts && r.ts < s + 24 * hourNs)).length

/- ── Concrete fixtures used by witnesses and counterexamples ────────── -/

/-- Fixture: a value row with every variable missing. -/
def noneVals : List (Option ℚ) := [none, none, none, none, none, none, none, none, none]

/-- Fixture: a value row whose first variable (co) carries the value 1. -/
def oneVals : List (Option ℚ) := [some 1, none, none, none, none, none, none, none, none]

/-- Fixture: two readings sixty seconds apart starting at 06:00 UTC. -/
def cadenceRows : List Reading :=
  [{ ts := 6 * hourNs, vals := oneVals }, { ts := 6 * hourNs + 60 * nsPerSec, vals := oneVals }]

/-- Fixture: a single reading placed exactly at a window's end boundary. -/
def boundaryReading : Reading := { ts := 6 * hourNs + 24 * hourNs, vals := oneVals }

end DailyStats

namespace DailyStats

/- ── Helper lemmas ──────────────────────────────────────────────────── -/

/-- Helper: the five statistics fields of a variable with no values are all
absent. -/
lemma varFields_of_empty (block : List Reading) (i : ℕ)
    (h : colValues block i = []) : varFields block i = List.replicate 5 .absent := by
  unfold varFields
  simp only [h]
  rfl

/-- Helper: the record of any window over the empty dataset. -/
lemma windowRow_nil (w : ℤ) : windowRow [] w = .ok (emptyStatRow w) := rfl

/-- Helper: the append loop over the empty dataset never fails and appends
one all-absent record per pending window. -/
lemma appendRows_nil (ws : List ℤ) : appendRows [] ws = .ok (ws.map emptyStatRow) := by
  induction ws with
  | nil => rfl
  | cons w ws ih => rw [List.map_cons, appendRows, windowRow_nil, ih]

/-- Helper: membership in a block slice. -/
lemma mem_blockSlice (rows : List Reading) (a b : ℤ) (r : Reading) :
    r ∈ blockSlice rows a b ↔ r ∈ rows ∧ a ≤ r.ts ∧ r.ts ≤ b := by
  simp [blockSlice, List.mem_filter]

/-- Helper: the fold computing a running minimum returns one of its inputs. -/
lemma foldl_min_mem (xs : List ℤ) : ∀ x : ℤ,
    xs.foldl (fun a b => if b < a then b else a) x ∈ x :: xs := by
  induction xs with
  | nil => intro x; simp
  | cons y ys ih =>
    intro x
    rw [List.foldl_cons]
    rcases List.mem_cons.mp (ih (if y < x then y else x)) with h | h
    · rw [h]; split
      · simp
      · simp
    · simp [h]

/-- Helper: minList returns an element of its input. -/
lemma minList_mem {l : List ℤ} {m : ℤ} (h : minList l = some m) : m ∈ l := by
  cases l with
  | nil => simp [minList] at h
  | cons x xs =>
    simp only [minList, Option.some.injEq] at h
    rw [← h]
    exact foldl_min_mem xs x

/-- Helper: every successive difference of a list confined to an interval
is at most the interval's width. -/
lemma diffsOf_le (lo hi : ℤ) : ∀ l : List ℤ, (∀ t ∈ l, lo ≤ t ∧ t ≤ hi) →
    ∀ d ∈ diffsOf l, d ≤ hi - lo := by
  intro l
  induction l with
  | nil => intro _ d hd; simp [diffsOf] at hd
  | cons a tail ih =>
    intro hmem d hd
    cases tail with
    | nil => simp [diffsOf] at hd
    | cons b rest =>
      rw [diffsOf] at hd
      rcases List.mem_cons.mp hd with h | h
      · have ha := hmem a (by simp)
        have hb := hmem b (by simp)
        omega
      · exact ih (fun t ht => hmem t (List.mem_cons_of_mem a ht)) d h

/-- Helper: half-even rounding of a / b is at least 1 when 0 < b ≤ a. -/
lemma pyRoundDiv_ge_one (a b : ℤ) (hb : 0 < b) (hba : b ≤ a) : 1 ≤ pyRoundDiv a b := by
  have h1 : 1 ≤ a / b := by
    rw [Int.le_ediv_iff_mul_le hb]; omega
  unfold pyRoundDiv
  split
  · exact h1
  · split
    · linarith
    · split
      · exact h1
      · linarith

/-- Helper: the most recent anchor boundary never lies in the future. -/
lemma anchorToday_le (now : ℤ) : anchorToday now ≤ now := by
  unfold anchorToday normalizeTs WINDOW_START_HOUR hourNs dayNs nsPerSec
  split <;> omega

/-- Helper: membership in the generated window list. -/
lemma mem_windowStarts (startDt now w : ℤ) :
    w ∈ windowStarts startDt now ↔
      ∃ k : ℕ, w = startDt + dayNs * (k : ℤ) ∧ w + dayNs ≤ anchorToday now := by
  unfold windowStarts dateRangeLen
  simp only [List.mem_map, List.mem_range, dayNs, nsPerSec]
  constructor
  · rintro ⟨i, hi, rfl⟩
    refine ⟨i, rfl, ?_⟩
    split at hi <;> omega
  · rintro ⟨k, rfl, hend⟩
    refine ⟨k, ?_, rfl⟩
    split <;> omega

/-- Helper: availableCount never exceeds the number of rows in the block. -/
lemma availableCount_le_length (block : List Reading) :
    availableCount block ≤ block.length := by
  unfold availableCount
  exact List.length_filter_le _ _

/-- Helper: a present expected count on a 24-hour slice is at least 1. -/
lemma expected_pos (rows : List Reading) (s : ℤ) :
    ∀ e : ℤ, expectedField (blockSlice rows s (s + 24 * hourNs)) = .ok (some e) → 1 ≤ e := by
  intro e he
  unfold expectedField at he
  split at he
  case isFalse => simp at he
  case isTrue h2 =>
    split at he
    case h_2 => simp at he
    case h_1 sec hm =>
      simp only [Except.ok.injEq, Option.some.injEq] at he
      have hsec := minList_mem hm
      rw [List.mem_filter] at hsec
      obtain ⟨hdiff, hpos⟩ := hsec
      rw [decide_eq_true_eq] at hpos
      have hb : ∀ t ∈ (blockSlice rows s (s + 24 * hourNs)).map (fun r => r.ts),
          s ≤ t ∧ t ≤ s + 24 * hourNs := by
        intro t ht
        rw [List.mem_map] at ht
        obtain ⟨r, hr, rfl⟩ := ht
        exact ((mem_blockSlice rows s (s + 24 * hourNs) r).mp hr).2
      have hle := diffsOf_le s (s + 24 * hourNs) _ hb sec hdiff
      rw [← he]
      refine pyRoundDiv_ge_one _ _ hpos ?_
      simp only [hourNs, nsPerSec] at hle ⊢
      omega

/-- Helper: the available count of a one-row block. -/
lemma availableCount_single (r : Reading) :
    availableCount [r] = (if r.vals.any (fun v => v.isSome) then 1 else 0) := by
  unfold availableCount
  rcases h : r.vals.any (fun v => v.isSome) with _ | _ <;>
    simp [List.filter_cons, h]

/-- Helper: the five fields of a variable with exactly one value. -/
lemma varFields_single (block : List Reading) (i : ℕ) (q : ℚ)
    (h : colValues block i = [q]) :
    varFields block i = [.num q, .num q, .num q, .nanTok, .num q] := by
  unfold varFields
  simp only [h]
  have hmean : seriesMean [q] = q := by
    simp [seriesMean, listSum]
  have hmed : seriesMedian [q] = q := by
    unfold seriesMedian
    simp [List.mergeSort_singleton]
  simp [List.isEmpty, hmean, hmed, seriesMin, seriesMax, stdField]

end DailyStats

namespace DailyStats

/- ── Claim theorems ─────────────────────────────────────────────────── -/

/-- Claim C1: the claim states that a slice with fewer than two distinct
timestamps — including two or more rows all sharing one timestamp — gets an
absent expected_count and that the computation never fails.  The source
disagrees: with two rows on one timestamp the length guard passes, every
successive difference is zero, the positive-difference series is empty, its
min is NaT, NaT.total_seconds() is nan and int(round(24*3600/nan)) raises
ValueError.  This theorem evaluates the embedded window computation at that
failing input. -/
theorem duplicate_timestamp_window_raises :
    windowRow [{ ts := 6 * hourNs, vals := oneVals }, { ts := 6 * hourNs, vals := oneVals }]
      (6 * hourNs) = .error "ValueError: cannot convert float NaN to integer" := rfl

/-- Claim C2 (counterexample): a reading whose timestamp equals the window
end is NOT excluded from that window — .loc label slicing is inclusive — so
it is counted both in the window ending there and in the next one. -/
theorem boundary_reading_double_counted :
    blockSlice [boundaryReading] (6 * hourNs) (6 * hourNs + 24 * hourNs) = [boundaryReading] ∧
    blockSlice [boundaryReading] (6 * hourNs + 24 * hourNs)
      (6 * hourNs + 24 * hourNs + 24 * hourNs) = [boundaryReading] := ⟨rfl, rfl⟩

/-- Claim C2 (amended): the slice of a window starting at s contains
exactly the readings with s ≤ t ≤ s + 24h (closed interval, not
half-open), and a reading lies in two consecutive windows' slices exactly
when its timestamp equals the shared boundary. -/
theorem block_slice_closed_characterization (rows : List Reading) (s : ℤ) (r : Reading) :
    (r ∈ blockSlice rows s (s + 24 * hourNs) ↔
      r ∈ rows ∧ s ≤ r.ts ∧ r.ts ≤ s + 24 * hourNs) ∧
    ((r ∈ blockSlice rows s (s + 24 * hourNs) ∧
      r ∈ blockSlice rows (s + 24 * hourNs) (s + 24 * hourNs + 24 * hourNs)) ↔
      r ∈ rows ∧ r.ts = s + 24 * hourNs) := by
  refine ⟨mem_blockSlice rows s (s + 24 * hourNs) r, ?_⟩
  rw [mem_blockSlice, mem_blockSlice]
  constructor
  · rintro ⟨⟨h1, h2, h3⟩, ⟨_, h4, h5⟩⟩
    exact ⟨h1, le_antisymm h3 h4⟩
  · rintro ⟨h1, h2⟩
    have hpos : (0 : ℤ) ≤ hourNs := by decide
    exact ⟨⟨h1, by omega, by omega⟩, ⟨h1, by omega, by omega⟩⟩

/-- Claim C3: the claim states that a second run with unchanged input
appends zero rows and does not fail.  The source disagrees: the first run
succeeds, but its rows carry ISO-8601 dates with a +00:00 offset, so on the
second run existing.date.max() is timezone-aware and .tz_localize(TZ)
raises TypeError before any window is examined.  This theorem evaluates
both runs of the embedded pipeline at such an input. -/
theorem second_run_checkpoint_raises :
    processSensor (6 * hourNs) [6 * hourNs] none [] = .ok [emptyStatRow (6 * hourNs)] ∧
    processSensor (6 * hourNs) [6 * hourNs] (some [writtenDate (6 * hourNs)]) [] =
      .error "TypeError: Cannot localize tz-aware timestamp, use tz_convert for conversions" :=
  ⟨rfl, rfl⟩

/-- Claim C4 (counterexample): with an existing sensor directory holding
zero matching files the merged dataset is empty, yet the first run does NOT
leave the output file header-only — it appends one row per pending window
(all statistics absent, available_count 0). -/
theorem empty_dataset_appends_rows :
    processSensor (6 * hourNs) [6 * hourNs, 6 * hourNs + dayNs] none [] =
      .ok [emptyStatRow (6 * hourNs), emptyStatRow (6 * hourNs + dayNs)] ∧
    [emptyStatRow (6 * hourNs), emptyStatRow (6 * hourNs + dayNs)] ≠ ([] : List StatRow) :=
  ⟨rfl, by decide⟩

/-- Claim C4 (amended): for a sensor with an empty merged dataset, a first
run (output file absent, so it is created with the header) appends exactly
one row per generated window past the sentinel checkpoint, each row having
every statistic absent, expected_count absent and available_count 0; the
run never fails. -/
theorem empty_dataset_rows_all_absent (startDt : ℤ) (windows : List ℤ) :
    processSensor startDt windows none [] =
      .ok ((windows.filter (fun w => startDt - dayNs < w)).map emptyStatRow) :=
  appendRows_nil _

/-- Claim C5 (counterexample): when the current instant T falls exactly on
the anchor boundary, the last generated window's end equals T — the claim's
assertion that no emitted window has an end time exactly equal to T fails.
Here start = Jan 1 06:00 and T = Jan 3 06:00 (in epoch nanoseconds with
day 0 = Jan 1): the second window is emitted and ends exactly at T. -/
theorem window_end_can_equal_now :
    windowStarts (6 * hourNs) (2 * dayNs + 6 * hourNs) = [6 * hourNs, 6 * hourNs + dayNs] ∧
    (6 * hourNs + dayNs) + 24 * hourNs = 2 * dayNs + 6 * hourNs := ⟨by decide, by decide⟩

/-- Claim C5 (amended): the generated window starts are exactly the
instants startDt + k·24h whose window end lies at or before the most recent
anchor boundary, and that boundary is at or before the current instant T —
so no window end lies in the future, though the last end can equal T
exactly when T is on the boundary.  Determinism holds because the generator
is a pure function of (start, current instant). -/
theorem window_starts_characterization (startDt now w : ℤ) :
    (w ∈ windowStarts startDt now ↔
      ∃ k : ℕ, w = startDt + dayNs * (k : ℤ) ∧ w + dayNs ≤ anchorToday now) ∧
    anchorToday now ≤ now :=
  ⟨mem_windowStarts startDt now w, anchorToday_le now⟩

/-- Claim C6 (counterexample): in a window whose slice is one reading with
a present value, the standard-deviation field of that variable is the NaN
token (Series.std of one value is NaN and percent-.3f renders it as text),
not the absent/empty field the claim requires. -/
theorem single_sample_std_is_nan_token :
    (varFields [{ ts := 6 * hourNs, vals := oneVals }] 0).getD 3 .absent = Field.nanTok ∧
    Field.nanTok ≠ Field.absent := ⟨rfl, by decide⟩

/-- Claim C6 (amended): for a window whose slice contains exactly one row,
expected_count is absent (serialized empty), available_count is 1 exactly
when the row has at least one non-missing variable and 0 otherwise, a
variable with no value gets all five statistics absent, and a variable with
one value gets its mean, min, max and median computed while the standard
deviation serializes as the NaN token rather than as an empty field. -/
theorem single_sample_record (r : Reading) (i : ℕ) :
    expectedField [r] = .ok none ∧
    availableCount [r] = (if r.vals.any (fun v => v.isSome) then 1 else 0) ∧
    (colValues [r] i = [] → varFields [r] i = List.replicate 5 .absent) ∧
    (∀ q : ℚ, colValues [r] i = [q] →
      varFields [r] i = [.num q, .num q, .num q, .nanTok, .num q]) :=
  ⟨rfl, availableCount_single r, varFields_of_empty [r] i,
    fun q hq => varFields_single [r] i q hq⟩

/-- Claim C6 witness: the amended record shape at a concrete one-row slice
whose first variable carries the value 1. -/
theorem single_sample_record_witness :
    expectedField [{ ts := 6 * hourNs, vals := oneVals }] = .ok none ∧
    availableCount [{ ts := 6 * hourNs, vals := oneVals }] = 1 ∧
    varFields [{ ts := 6 * hourNs, vals := oneVals }] 0 =
      [.num 1, .num 1, .num 1, .nanTok, .num 1] :=
  ⟨(single_sample_record { ts := 6 * hourNs, vals := oneVals } 0).1,
    ((single_sample_record { ts := 6 * hourNs, vals := oneVals } 0).2.1).trans rfl,
    (single_sample_record { ts := 6 * hourNs, vals := oneVals } 0).2.2.2 1 rfl⟩

/-- Claim C7: a variable with zero non-missing values in the window slice
gets all five of its statistics emitted as absent (serialized empty); the
computation is total and never produces a computed number for it, whatever
the other variables hold. -/
theorem all_missing_variable_stats_absent (block : List Reading) (i : ℕ)
    (h : colValues block i = []) : varFields block i = List.replicate 5 .absent :=
  varFields_of_empty block i h

/-- Claim C7 witness: the absent-statistics policy at a concrete one-row
block whose variables are all missing. -/
theorem all_missing_variable_stats_absent_witness :
    varFields [{ ts := 6 * hourNs, vals := noneVals }] 0 = List.replicate 5 .absent :=
  all_missing_variable_stats_absent [{ ts := 6 * hourNs, vals := noneVals }] 0 rfl

/-- Claim C8 (counterexample): a corrupt raw file is skipped and processing
continues, but NO warning is emitted — the diagnostics component of the
read loop is empty even though a file was dropped, while the other file's
readings survive. -/
theorem corrupt_file_skipped_without_warning :
    readFiles [RawFile.bad, RawFile.good [{ ts := 0, vals := oneVals }]] =
      ([{ ts := 0, vals := oneVals }], ([] : List String)) := rfl

/-- Claim C8 (amended): a raw file that cannot be opened or parsed is
skipped SILENTLY — no warning is emitted — and processing continues: the
merged dataset holds exactly the readings of the successfully parsed files,
so a single corrupt file never aborts the sensor's run. -/
theorem merger_skips_bad_files_silently (files : List RawFile) :
    readFiles files = (files.flatMap goodRows, []) ∧
    ∀ r : Reading, (r ∈ mergeAndSort files ↔ r ∈ files.flatMap goodRows) := by
  have h : readFiles files = (files.flatMap goodRows, []) := by
    induction files with
    | nil => rfl
    | cons f fs ih =>
      cases f with
      | good rows => simp [readFiles, goodRows, ih]
      | bad => simp [readFiles, goodRows, ih]
  refine ⟨h, fun r => ?_⟩
  unfold mergeAndSort
  rw [h]
  exact List.mem_mergeSort

/-- Claim C9 (counterexample): available_count can exceed the number of raw
rows inside the half-open window [s, s+24h) of the spec's window contract —
a reading exactly at the window end is inside the code's closed slice and
counts as available, yet lies outside the half-open window. -/
theorem available_count_exceeds_half_open_rows :
    availableCount (blockSlice [boundaryReading] (6 * hourNs) (6 * hourNs + 24 * hourNs)) = 1 ∧
    specWindowRowCount [boundaryReading] (6 * hourNs) = 0 := ⟨rfl, rfl⟩

/-- Claim C9 (amended): for every computed window record, available_count
is at most the number of raw rows in the slice the code selects (the closed
interval [s, s+24h]), and expected_count, whenever present, is a positive
integer. -/
theorem stat_row_count_invariant (rows : List Reading) (s : ℤ) :
    availableCount (blockSlice rows s (s + 24 * hourNs)) ≤
      (blockSlice rows s (s + 24 * hourNs)).length ∧
    ∀ e : ℤ, expectedField (blockSlice rows s (s + 24 * hourNs)) = .ok (some e) → 1 ≤ e :=
  ⟨availableCount_le_length _, expected_pos rows s⟩

/-- Claim C9 witness: the invariant at a concrete two-reading slice on a
sixty-second cadence, whose expected count evaluates to 1440. -/
theorem stat_row_count_invariant_witness :
    availableCount (blockSlice cadenceRows (6 * hourNs) (6 * hourNs + 24 * hourNs)) ≤
      (blockSlice cadenceRows (6 * hourNs) (6 * hourNs + 24 * hourNs)).length ∧
    (1 : ℤ) ≤ 1440 :=
  ⟨(stat_row_count_invariant cadenceRows (6 * hourNs)).1,
    (stat_row_count_invariant cadenceRows (6 * hourNs)).2 1440 (by rfl)⟩

/-- Claim C10: in the plotting consumer, a row whose expected_count cell is
empty or non-numeric is never kept (its coerced value is NaN, the ratio is
NaN, and a NaN comparison is false), the computation is total — no error is
raised — and in general a row is kept exactly when the computed ratio
compares at least 0.9. -/
theorem plot_filter_excludes_absent_expected (a e : Cell) :
    (toNumericCell e = .nan → keepRow a e = false) ∧
    ((e = .blank ∨ ∃ s : String, e = .text s) → keepRow a e = false) ∧
    (geQ (pdiv (toNumericCell a) (toNumericCell e)) (9 / 10) = false →
      keepRow a e = false) := by
  refine ⟨fun h => ?_, fun h => ?_, fun h => h⟩
  · unfold keepRow
    rw [h]
    cases toNumericCell a <;> rfl
  · have hnan : toNumericCell e = .nan := by
      rcases h with rfl | ⟨s, rfl⟩ <;> rfl
    unfold keepRow
    rw [hnan]
    cases toNumericCell a <;> rfl

/-- Claim C10 witness: a concrete row with available_count 1440 and an
empty expected_count cell is excluded from plotting. -/
theorem plot_filter_excludes_absent_expected_witness :
    keepRow (Cell.number 1440) Cell.blank = false :=
  (plot_filter_excludes_absent_expected (Cell.number 1440) Cell.blank).1 rfl

end DailyStats
